import Mathlib

/-!
Shallow embedding of the geo-RAG ward-resolution pipeline.

The program answers which municipal ward a named landmark falls in.  Its
query path is `GeoRetriever.extract_entity_from_query` (LLM entity
extraction) followed by `GeoRetriever.perform_hybrid_retrieval` (geocode
the entity, point-in-polygon scan over the ward polygons, context
assembly).  Its ingestion path (`data_processing.main`) downloads the raw
polygon file, drops features without geometry, reindexes, builds a vector
index and persists the corpus.

External services (language model, geocoder, the point-in-polygon test of
the geometry library) are modelled as function-valued fields that may fail,
with failure represented by `Except`.  File-system and vector-store effects
are modelled by explicit state passing.
-/

namespace GeoRAG

/-- A geographic point, as (longitude, latitude); coordinates are abstracted
to integers since no claim depends on coordinate arithmetic. -/
abbrev Point := Int × Int

/-- A polygon (or multipolygon) geometry, represented by its point-in-polygon
test.  The test may raise (the geometry library can fail on invalid
geometries), modelled by `Except`. -/
structure Geometry where
  containsFn : Point → Except String Bool

/-- One ward feature row: geometry may be null in the raw file; `ward_name`
and `ward_no` attributes may be absent (Python `row.get` with a default). -/
structure RawFeature where
  geometry : Option Geometry
  ward_name : Option String
  ward_no : Option String

/-- A GeoDataFrame: rows paired with their integer index. -/
abbrev Corpus := List (Nat × RawFeature)

/-- Result of a successful geocoding call. -/
structure GeoLocation where
  longitude : Int
  latitude : Int
deriving DecidableEq

/-- The Nominatim geolocator: a query string either geocodes to zero-or-one
location, or the call raises. -/
structure Geolocator where
  geocode : String → Except String (Option GeoLocation)

/-- The Together chat-completion client: a prompt yields a completion string
or the call raises (network/auth/quota errors). -/
structure LLMClient where
  complete : String → Except String String

/-- One embedded document stored in the vector index. -/
structure IndexEntry where
  id : String
  embedding : List Int
  document : String

/-- A named ChromaDB collection. -/
structure Collection where
  name : String
  entries : List IndexEntry

/-- The `GeoRetriever` object state as set up by `__init__`:
an embedding model, the chroma collection, the geolocator, and the
(optionally initialized) LLM client. -/
structure GeoRetriever where
  embedding_model : String → List Int
  collection : Collection
  geolocator : Geolocator
  llm_client : Option LLMClient

/-- Python `str.strip()`: remove leading and trailing whitespace. -/
def pyStrip (s : String) : String :=
  String.mk (((s.data.dropWhile Char.isWhitespace).reverse.dropWhile Char.isWhitespace).reverse)

/-- Python `str.replace('\x22', '')` specialised to this call site: delete
every occurrence of the double-quote character. -/
def pyReplaceQuote : List Char → List Char
  | [] => []
  | c :: cs => if c = '"' then pyReplaceQuote cs else c :: pyReplaceQuote cs

/-- `content.strip().replace('\x22', '')` from `extract_entity_from_query`. -/
def stripAndUnquote (s : String) : String :=
  String.mk (pyReplaceQuote (pyStrip s).data)

/-- The fixed entity-extraction prompt, with the question embedded verbatim. -/
def extraction_prompt (query : String) : String :=
  "\nFrom the user question below, extract the full name of the geographical landmark.\nDo not add any extra words, explanations, or formatting. Just return the name.\n\nQuestion: \"" ++ query ++ "\"\n\nLandmark Name:\n        "

/-- `GeoRetriever.extract_entity_from_query`: if no LLM client, return the
query; otherwise ask the model, strip/unquote the completion, and on any
call error return the query unchanged. -/
def extract_entity_from_query (r : GeoRetriever) (query : String) : String :=
  match r.llm_client with
  | none => query
  | some client =>
    match client.complete (extraction_prompt query) with
    | Except.ok content => stripAndUnquote content
    | Except.error _ => query

/-- `gdf.geometry.contains(point)` on one row: geopandas yields `False` for a
missing geometry; an actual geometry runs its (fallible) containment test. -/
def geometry_contains (f : RawFeature) (p : Point) : Except String Bool :=
  match f.geometry with
  | none => Except.ok false
  | some g => g.containsFn p

/-- The vectorized boolean mask `gdf.geometry.contains(point)`: evaluated
left to right over all rows; the first raising row aborts the whole
computation. -/
def contains_mask (gdf : Corpus) (p : Point) : Except String (List Bool) :=
  match gdf with
  | [] => Except.ok []
  | row :: rest =>
    match geometry_contains row.2 p, contains_mask rest p with
    | Except.ok b, Except.ok m => Except.ok (b :: m)
    | Except.error e, _ => Except.error e
    | Except.ok _, Except.error e => Except.error e

/-- Pandas boolean indexing `gdf[mask]`: keep the rows whose mask entry is
true, preserving the original index. -/
def select_by_mask (gdf : Corpus) (mask : List Bool) : Corpus :=
  ((gdf.zip mask).filter (fun x => x.2)).map Prod.fst

/-- `gdf[gdf.geometry.contains(location_point)]`. -/
def contains_select (gdf : Corpus) (p : Point) : Except String Corpus :=
  match contains_mask gdf p with
  | Except.error e => Except.error e
  | Except.ok mask => Except.ok (select_by_mask gdf mask)

/-- One context line of the assembled context block (retriever defaults:
`ward_name` → "Unnamed", `ward_no` → "N/A"). -/
def context_line (entity : String) (f : RawFeature) : String :=
  "- The landmark \x27" ++ entity ++ "\x27 is located in ward number "
    ++ f.ward_no.getD "N/A" ++ ", named " ++ f.ward_name.getD "Unnamed" ++ "."

/-- What a call to `perform_hybrid_retrieval` observably produces: the
context string, the matched ward rows, and how many geocoding calls
were made. -/
structure RetrievalResult where
  context : String
  wards : Corpus
  geocode_calls : Nat

/-- `GeoRetriever.perform_hybrid_retrieval`: extract the entity; short-circuit
when extraction failed or echoed the query; geocode "{entity}, Delhi, India";
point-in-polygon scan; assemble one context line per matched ward.  Errors
raised by geocoding or the spatial test are caught and mapped to a fixed
message. -/
def perform_hybrid_retrieval (r : GeoRetriever) (query : String) (gdf : Corpus) :
    RetrievalResult :=
  let entity_name := extract_entity_from_query r query
  if entity_name = "" ∨ entity_name = query then
    { context := "Could not identify a clear landmark for a precise location search.",
      wards := [], geocode_calls := 0 }
  else
    match r.geolocator.geocode (entity_name ++ ", Delhi, India") with
    | Except.error _ =>
      { context := "An error occurred while searching for the location.",
        wards := [], geocode_calls := 1 }
    | Except.ok none =>
      { context := "Could not find the location of the specified landmark.",
        wards := [], geocode_calls := 1 }
    | Except.ok (some loc) =>
      match contains_select gdf (loc.longitude, loc.latitude) with
      | Except.error _ =>
        { context := "An error occurred while searching for the location.",
          wards := [], geocode_calls := 1 }
      | Except.ok result_gdf =>
        if result_gdf.isEmpty then
          { context := "Found the location of " ++ entity_name
              ++ ", but could not match it to a specific ward.",
            wards := [], geocode_calls := 1 }
        else
          { context := String.intercalate "\n"
              (result_gdf.map (fun row => context_line entity_name row.2)),
            wards := result_gdf, geocode_calls := 1 }

/-- The retrieval method as a state transformer on the retriever object: the
method body contains no assignment to `self`, so the object state is
returned unchanged alongside the result. -/
def perform_hybrid_retrieval_step (r : GeoRetriever) (query : String) (gdf : Corpus) :
    RetrievalResult × GeoRetriever :=
  (perform_hybrid_retrieval r query gdf, r)

/-- Run a sequence of queries against the retriever, threading its state. -/
def run_queries (r : GeoRetriever) (qs : List (String × Corpus)) : GeoRetriever :=
  qs.foldl (fun st x => (perform_hybrid_retrieval_step st x.1 x.2).2) r

/-! Ingestion pipeline (`data_processing.py`). -/

/-- `create_feature_document`: the fixed document template (ingestion
defaults: `ward_name` → "Unnamed Ward", `ward_no` → "N/A"). -/
def create_feature_document (row : RawFeature) : String :=
  "This is municipal ward number " ++ row.ward_no.getD "N/A"
    ++ ", named " ++ row.ward_name.getD "Unnamed Ward" ++ ", in Delhi."

/-- `CHROMA_COLLECTION_NAME` from `config.py`. -/
def CHROMA_COLLECTION_NAME : String := "delhi_wards"

/-- The on-disk vector store (`VECTOR_STORE_DIR`): its named collections. -/
structure VectorStoreState where
  collections : List (String × List IndexEntry)

/-- The file-system state touched by ingestion: the raw data file
(`RAW_DATA_PATH`, parsed contents), the persisted corpus
(`GDF_PICKLE_PATH`), and the vector store directory. -/
structure FileSystem where
  raw_data : Option (List RawFeature)
  corpus_file : Option Corpus
  vector_store : Option VectorStoreState

/-- The external services ingestion consumes: the dataset download (may
fail) and the embedding model. -/
structure IngestEnv where
  download : Except String (List RawFeature)
  embed : String → List Int

/-- `download_data_if_needed`: skip when the raw file exists; otherwise
download, returning `false` (and writing nothing) on failure. -/
def download_data_if_needed (env : IngestEnv) (fs : FileSystem) :
    Bool × FileSystem :=
  match fs.raw_data with
  | some _ => (true, fs)
  | none =>
    match env.download with
    | Except.ok content => (true, { fs with raw_data := some content })
    | Except.error _ => (false, fs)

/-- `gpd.read_file`: rows with their 0-based file-order index. -/
def read_file (rows : List RawFeature) : Corpus := rows.enum

/-- `gdf[gdf.geometry.notna()]`: drop rows with null geometry, keeping the
original index. -/
def filter_notna (g : Corpus) : Corpus :=
  g.filter (fun x => x.2.geometry.isSome)

/-- `gdf.reset_index(drop=True)`: reassign a dense 0-based index in the
current row order. -/
def reset_index (g : Corpus) : Corpus := (g.map Prod.snd).enum

/-- The processed GeoDataFrame: read, filter null geometries, reindex. -/
def processed_gdf (rows : List RawFeature) : Corpus :=
  reset_index (filter_notna (read_file rows))

/-- `client.get_or_create_collection(name)` effect on the store. -/
def get_or_create_collection (vs : VectorStoreState) (name : String) :
    VectorStoreState :=
  if vs.collections.any (fun c => c.1 = name) then vs
  else { collections := vs.collections ++ [(name, [])] }

/-- `collection.add(ids, embeddings, documents)`: append the new entries to
the named collection. -/
def collection_add (vs : VectorStoreState) (name : String)
    (new : List IndexEntry) : VectorStoreState :=
  { collections := vs.collections.map
      (fun c => if c.1 = name then (c.1, c.2 ++ new) else c) }

/-- `collection.count()` for a named collection of the store. -/
def collection_count (vs : VectorStoreState) (name : String) : Nat :=
  match vs.collections.find? (fun c => c.1 = name) with
  | some c => c.2.length
  | none => 0

/-- The (id, embedding, document) triples added by the build: ids are the
dataframe index as strings; documents come from `create_feature_document`;
embeddings from encoding each document. -/
def build_entries (embed : String → List Int) (gdf : Corpus) : List IndexEntry :=
  gdf.map (fun x =>
    { id := toString x.1,
      embedding := embed (create_feature_document x.2),
      document := create_feature_document x.2 })

/-- `data_processing.main`: download if needed (abort on failure), process
the dataframe, delete the vector store directory (`shutil.rmtree`), rebuild
the collection from scratch, add all entries, and persist the corpus. -/
def data_processing_main (env : IngestEnv) (fs : FileSystem) : FileSystem :=
  match download_data_if_needed env fs with
  | (false, fs1) => fs1
  | (true, fs1) =>
    match fs1.raw_data with
    | none => fs1
    | some rows =>
      let gdf := processed_gdf rows
      let entries := build_entries env.embed gdf
      let vs1 := get_or_create_collection { collections := [] } CHROMA_COLLECTION_NAME
      let vs2 := collection_add vs1 CHROMA_COLLECTION_NAME entries
      { fs1 with vector_store := some vs2, corpus_file := some gdf }

/-! The constructor-call mismatch (`app.py` line 64 vs `retriever.py`
line 17). -/

/-- Number of parameters of `GeoRetriever.__init__` besides `self`
(`def __init__(self)` in `retriever.py`). -/
def geoRetrieverInitArity : Nat := 0

/-- Outcome of a Python call: either the object is constructed or the call
raises `TypeError`. -/
inductive PyCallOutcome where
  | constructed
  | typeError
deriving DecidableEq

/-- Python positional-call semantics for a method with no defaults and no
varargs: argument count must equal parameter count, else `TypeError`. -/
def call_init (arity args : Nat) : PyCallOutcome :=
  if args = arity then PyCallOutcome.constructed else PyCallOutcome.typeError

/-- The constructor call performed by `initialize_database_and_retriever`
in `app.py`: `retriever.GeoRetriever(collection)` passes one positional
argument. -/
def initialize_database_and_retriever_call : PyCallOutcome :=
  call_init geoRetrieverInitArity 1

/-- Modelled from the spec: "strips surrounding quote characters and
whitespace from the result" — surrounding whitespace removed, then
surrounding (leading/trailing) double-quote characters removed, interior
characters untouched.  For comparison with the code's behaviour. -/
def spec_strip_surrounding (s : String) : String :=
  String.mk ((((pyStrip s).data.dropWhile (fun c => c = '"')).reverse.dropWhile
    (fun c => c = '"')).reverse)

/-! Concrete fixtures used to instantiate the theorems below. -/

/-- An empty chroma collection fixture. -/
def fixtureCollection : Collection :=
  { name := "delhi_wards", entries := [] }

/-- A geometry containing exactly the point (7, 7). -/
def fixtureGeomIn : Geometry :=
  { containsFn := fun p => Except.ok (decide (p.1 = 7 ∧ p.2 = 7)) }

/-- The Kalkaji ward fixture (ward number 58). -/
def fixtureWard : RawFeature :=
  { geometry := some fixtureGeomIn, ward_name := some "Kalkaji", ward_no := some "58" }

/-- An LLM client that always answers "Lotus Temple". -/
def fixtureLLMLotus : LLMClient :=
  { complete := fun _ => Except.ok "Lotus Temple" }

/-- An LLM client whose completion contains an interior double quote. -/
def fixtureLLMQuote : LLMClient :=
  { complete := fun _ => Except.ok "a\"b" }

/-- A geolocator that resolves exactly the Lotus Temple query to (7, 7). -/
def fixtureGeolocLotus : Geolocator :=
  { geocode := fun s =>
      if s = "Lotus Temple, Delhi, India" then
        Except.ok (some { longitude := 7, latitude := 7 })
      else Except.ok none }

/-- A geolocator whose every call raises. -/
def fixtureGeolocFail : Geolocator :=
  { geocode := fun _ => Except.error "network down" }

/-- Retriever with no LLM client configured. -/
def rNoLLM : GeoRetriever :=
  { embedding_model := fun _ => [], collection := fixtureCollection,
    geolocator := fixtureGeolocFail, llm_client := none }

/-- Retriever whose LLM extracts "Lotus Temple" and whose geolocator
resolves it. -/
def rLotus : GeoRetriever :=
  { embedding_model := fun _ => [], collection := fixtureCollection,
    geolocator := fixtureGeolocLotus, llm_client := some fixtureLLMLotus }

/-- Retriever whose LLM extracts "Lotus Temple" but whose geolocator
raises. -/
def rGeoFail : GeoRetriever :=
  { embedding_model := fun _ => [], collection := fixtureCollection,
    geolocator := fixtureGeolocFail, llm_client := some fixtureLLMLotus }

/-- Retriever whose LLM completion contains an interior double quote. -/
def rQuote : GeoRetriever :=
  { embedding_model := fun _ => [], collection := fixtureCollection,
    geolocator := fixtureGeolocFail, llm_client := some fixtureLLMQuote }

/-- Raw input rows: one feature with null geometry, then the Kalkaji ward. -/
def fixtureRawRows : List RawFeature :=
  [{ geometry := none, ward_name := some "NoGeom", ward_no := some "1" }, fixtureWard]

/-- Ingestion environment whose download succeeds with the fixture rows. -/
def fixtureEnvOk : IngestEnv :=
  { download := Except.ok fixtureRawRows, embed := fun _ => [0] }

/-- Ingestion environment whose download fails. -/
def fixtureEnvFail : IngestEnv :=
  { download := Except.error "HTTP 500", embed := fun _ => [0] }

/-- Empty file system (nothing downloaded or persisted yet). -/
def fixtureFS : FileSystem :=
  { raw_data := none, corpus_file := none, vector_store := none }

/-- File system with a previously persisted corpus but no raw file. -/
def fixtureFSWithCorpus : FileSystem :=
  { raw_data := none, corpus_file := some [(0, fixtureWard)], vector_store := none }

/-! Helper lemmas. -/

theorem pyReplaceQuote_eq_filter (l : List Char) :
    pyReplaceQuote l = l.filter (fun c => decide (c ≠ '"')) := by
  induction l with
  | nil => rfl
  | cons c cs ih =>
    by_cases h : c = '"'
    · simp [pyReplaceQuote, h, List.filter_cons, ih]
    · simp [pyReplaceQuote, h, List.filter_cons, ih]

theorem contains_mask_all_false (p : Point) (l : Corpus)
    (h : ∀ x ∈ l, geometry_contains x.2 p = Except.ok false) :
    contains_mask l p = Except.ok (l.map fun _ => false) := by
  induction l with
  | nil => rfl
  | cons row rest ih =>
    have h1 : geometry_contains row.2 p = Except.ok false := h row (by simp)
    have h2 := ih (fun x hx => h x (by simp [hx]))
    simp [contains_mask, h1, h2]

theorem select_by_mask_cons (a : Nat × RawFeature) (l : Corpus) (b : Bool)
    (m : List Bool) :
    select_by_mask (a :: l) (b :: m) =
      if b then a :: select_by_mask l m else select_by_mask l m := by
  cases b <;> simp [select_by_mask, List.filter_cons]

theorem select_by_mask_all_false (l : Corpus) :
    select_by_mask l (List.replicate l.length false) = [] := by
  induction l with
  | nil => rfl
  | cons a t ih => simpa [select_by_mask_cons] using ih

theorem contains_mask_single (p : Point) (pre post : Corpus) (iw : Nat × RawFeature)
    (hpre : ∀ x ∈ pre, geometry_contains x.2 p = Except.ok false)
    (hpost : ∀ x ∈ post, geometry_contains x.2 p = Except.ok false)
    (hw : geometry_contains iw.2 p = Except.ok true) :
    contains_mask (pre ++ iw :: post) p =
      Except.ok ((pre.map fun _ => false) ++ true :: (post.map fun _ => false)) := by
  induction pre with
  | nil =>
    simp [contains_mask, hw, contains_mask_all_false p post hpost]
  | cons a t ih =>
    have h1 : geometry_contains a.2 p = Except.ok false := hpre a (by simp)
    have h2 := ih (fun x hx => hpre x (by simp [hx]))
    simp [contains_mask, h1, h2]

theorem select_by_mask_single (pre post : Corpus) (iw : Nat × RawFeature) :
    select_by_mask (pre ++ iw :: post)
      ((pre.map fun _ => false) ++ true :: (post.map fun _ => false)) = [iw] := by
  induction pre with
  | nil => simp [select_by_mask_cons, select_by_mask_all_false]
  | cons a t ih => simpa [select_by_mask_cons] using ih

theorem contains_select_reduce (gdf : Corpus) (p : Point) (m : List Bool)
    (h : contains_mask gdf p = Except.ok m) :
    contains_select gdf p = Except.ok (select_by_mask gdf m) := by
  rw [contains_select, h]

theorem contains_select_single (p : Point) (pre post : Corpus) (iw : Nat × RawFeature)
    (hpre : ∀ x ∈ pre, geometry_contains x.2 p = Except.ok false)
    (hpost : ∀ x ∈ post, geometry_contains x.2 p = Except.ok false)
    (hw : geometry_contains iw.2 p = Except.ok true) :
    contains_select (pre ++ iw :: post) p = Except.ok [iw] := by
  rw [contains_select_reduce (pre ++ iw :: post) p _
    (contains_mask_single p pre post iw hpre hpost hw), select_by_mask_single]

theorem run_queries_eq (qs : List (String × Corpus)) :
    ∀ r : GeoRetriever, run_queries r qs = r := by
  induction qs with
  | nil => intro r; rfl
  | cons q t ih =>
    intro r
    simp [run_queries, perform_hybrid_retrieval_step]

theorem filter_notna_enumFrom_map_snd (rows : List RawFeature) :
    ∀ n : Nat, (filter_notna (List.enumFrom n rows)).map Prod.snd
      = rows.filter (fun r => r.geometry.isSome) := by
  induction rows with
  | nil => intro n; rfl
  | cons a t ih =>
    intro n
    by_cases h : a.geometry.isSome
    · simp [filter_notna, List.enumFrom, List.filter_cons, h] at ih ⊢
      exact ih (n + 1)
    · simp [filter_notna, List.enumFrom, List.filter_cons, h] at ih ⊢
      exact ih (n + 1)

theorem processed_gdf_map_snd (rows : List RawFeature) :
    (processed_gdf rows).map Prod.snd = rows.filter (fun r => r.geometry.isSome) := by
  have h0 : read_file rows = List.enumFrom 0 rows := rfl
  rw [processed_gdf, reset_index, List.enum_map_snd, h0,
    filter_notna_enumFrom_map_snd rows 0]

theorem processed_gdf_map_fst (rows : List RawFeature) :
    (processed_gdf rows).map Prod.fst = List.range (processed_gdf rows).length := by
  rw [processed_gdf, reset_index, List.enum_map_fst, List.enum_length]

theorem dp_main_eq (env : IngestEnv) (fs : FileSystem) (rows : List RawFeature)
    (hrows : fs.raw_data = some rows ∨
      (fs.raw_data = none ∧ env.download = Except.ok rows)) :
    data_processing_main env fs =
      { raw_data := some rows,
        corpus_file := some (processed_gdf rows),
        vector_store := some { collections :=
          [(CHROMA_COLLECTION_NAME, build_entries env.embed (processed_gdf rows))] } } := by
  obtain ⟨rd, cf, vs⟩ := fs
  rcases hrows with h | ⟨h1, h2⟩
  · simp only at h
    subst h
    simp [data_processing_main, download_data_if_needed,
      get_or_create_collection, collection_add]
  · simp only at h1 h2
    subst h1
    simp [data_processing_main, download_data_if_needed, h2,
      get_or_create_collection, collection_add]

theorem intercalate_single (s a : String) : String.intercalate s [a] = a := rfl

/-! Claim theorems. -/

/-- C1: for every question and corpus, if the extracted entity name is empty
or equals the original question verbatim, `perform_hybrid_retrieval` returns
the fixed "no clear landmark" explanatory string with an empty ward set and
makes zero geocoding calls. -/
theorem c1_short_circuit_no_landmark (r : GeoRetriever) (query : String)
    (gdf : Corpus)
    (h : extract_entity_from_query r query = "" ∨
      extract_entity_from_query r query = query) :
    perform_hybrid_retrieval r query gdf =
      { context := "Could not identify a clear landmark for a precise location search.",
        wards := [], geocode_calls := 0 } := by
  simp [perform_hybrid_retrieval, h]

/-- Witness for C1: with no LLM client configured, extraction echoes the
question and the pipeline short-circuits with zero geocoding calls. -/
theorem c1_short_circuit_no_landmark_witness :
    (extract_entity_from_query rNoLLM "q" = "" ∨
      extract_entity_from_query rNoLLM "q" = "q") ∧
    perform_hybrid_retrieval rNoLLM "q" [] =
      { context := "Could not identify a clear landmark for a precise location search.",
        wards := [], geocode_calls := 0 } :=
  ⟨Or.inr rfl, c1_short_circuit_no_landmark rNoLLM "q" [] (Or.inr rfl)⟩

/-- C2: when the extracted entity geocodes to a point contained in exactly
one polygon of the corpus, `perform_hybrid_retrieval` returns exactly that
ward, and the context string is the single line
"- The landmark 'entity' is located in ward number ward_no, named ward_name."
(lines joined by newline in corpus order). -/
theorem c2_unique_ward_matched (r : GeoRetriever) (query : String)
    (pre post : Corpus) (i : Nat) (w : RawFeature) (loc : GeoLocation)
    (hne : extract_entity_from_query r query ≠ "")
    (hnq : extract_entity_from_query r query ≠ query)
    (hgeo : r.geolocator.geocode
        (extract_entity_from_query r query ++ ", Delhi, India")
      = Except.ok (some loc))
    (hpre : ∀ x ∈ pre,
      geometry_contains x.2 (loc.longitude, loc.latitude) = Except.ok false)
    (hpost : ∀ x ∈ post,
      geometry_contains x.2 (loc.longitude, loc.latitude) = Except.ok false)
    (hw : geometry_contains w (loc.longitude, loc.latitude) = Except.ok true) :
    perform_hybrid_retrieval r query (pre ++ (i, w) :: post) =
      { context := context_line (extract_entity_from_query r query) w,
        wards := [(i, w)], geocode_calls := 1 } := by
  have hcond : ¬(extract_entity_from_query r query = "" ∨
      extract_entity_from_query r query = query) := by
    push_neg
    exact ⟨hne, hnq⟩
  have hsel := contains_select_single (loc.longitude, loc.latitude) pre post
    (i, w) hpre hpost hw
  simp [perform_hybrid_retrieval, hgeo, hsel, if_neg hcond, intercalate_single]

/-- Witness for C2: the Lotus Temple geocodes to (7, 7), which lies in the
single Kalkaji ward fixture, and the assembled context is its one line. -/
theorem c2_unique_ward_matched_witness :
    extract_entity_from_query rLotus "Which ward is the Lotus Temple in?" ≠ "" ∧
    geometry_contains fixtureWard (7, 7) = Except.ok true ∧
    perform_hybrid_retrieval rLotus "Which ward is the Lotus Temple in?"
        [(0, fixtureWard)] =
      { context := context_line
          (extract_entity_from_query rLotus "Which ward is the Lotus Temple in?")
          fixtureWard,
        wards := [(0, fixtureWard)], geocode_calls := 1 } :=
  ⟨by decide, rfl,
    c2_unique_ward_matched rLotus "Which ward is the Lotus Temple in?" [] [] 0
      fixtureWard { longitude := 7, latitude := 7 } (by decide) (by decide) rfl
      (by simp) (by simp) rfl⟩

/-- C3: the resolution path never consults the vector index: its result is
independent of the collection's contents, and running any number of queries
leaves the collection unchanged. -/
theorem c3_index_not_consulted (r : GeoRetriever) (query : String) (gdf : Corpus)
    (c : Collection) (qs : List (String × Corpus)) :
    perform_hybrid_retrieval { r with collection := c } query gdf
      = perform_hybrid_retrieval r query gdf ∧
    (run_queries r qs).collection = r.collection :=
  ⟨rfl, by rw [run_queries_eq]⟩

/-- C4: `GeoRetriever.__init__` accepts no argument besides `self`, so the
constructor call `GeoRetriever(collection)` in
`initialize_database_and_retriever` raises `TypeError` on every invocation. -/
theorem c4_constructor_arity_mismatch :
    geoRetrieverInitArity = 0 ∧
    initialize_database_and_retriever_call = PyCallOutcome.typeError :=
  ⟨rfl, rfl⟩

/-- C5: after a successful ingestion run, the persisted corpus is the
processed dataframe; every persisted feature has non-null geometry; the ids
are the dense contiguous 0-based sequence; and the row order is the
post-filter order of the input file. -/
theorem c5_corpus_invariants (env : IngestEnv) (fs : FileSystem)
    (rows : List RawFeature)
    (hrows : fs.raw_data = some rows ∨
      (fs.raw_data = none ∧ env.download = Except.ok rows)) :
    (data_processing_main env fs).corpus_file = some (processed_gdf rows) ∧
    (∀ x ∈ processed_gdf rows, x.2.geometry.isSome) ∧
    (processed_gdf rows).map Prod.fst = List.range (processed_gdf rows).length ∧
    (processed_gdf rows).map Prod.snd
      = rows.filter (fun r => r.geometry.isSome) := by
  refine ⟨?_, ?_, processed_gdf_map_fst rows, processed_gdf_map_snd rows⟩
  · rw [dp_main_eq env fs rows hrows]
  · intro x hx
    have hx2 : x.2 ∈ (processed_gdf rows).map Prod.snd :=
      List.mem_map_of_mem Prod.snd hx
    rw [processed_gdf_map_snd rows] at hx2
    exact (List.mem_filter.mp hx2).2

/-- Witness for C5: ingesting two raw rows (one with null geometry) persists
a one-row corpus with id 0 and non-null geometry. -/
theorem c5_corpus_invariants_witness :
    (fixtureFS.raw_data = none ∧ fixtureEnvOk.download = Except.ok fixtureRawRows) ∧
    ((data_processing_main fixtureEnvOk fixtureFS).corpus_file
        = some (processed_gdf fixtureRawRows) ∧
      (∀ x ∈ processed_gdf fixtureRawRows, x.2.geometry.isSome) ∧
      (processed_gdf fixtureRawRows).map Prod.fst
        = List.range (processed_gdf fixtureRawRows).length ∧
      (processed_gdf fixtureRawRows).map Prod.snd
        = fixtureRawRows.filter (fun r => r.geometry.isSome)) :=
  ⟨⟨rfl, rfl⟩,
    c5_corpus_invariants fixtureEnvOk fixtureFS fixtureRawRows (Or.inr ⟨rfl, rfl⟩)⟩

/-- C6: after a successful build, the vector store holds exactly one
collection, built solely from the new corpus (so a rebuild leaves no
residual entries); its item count equals the corpus size; every entry id is
the corresponding feature id as a string; and the final store does not
depend on the store present before the rebuild. -/
theorem c6_index_rebuild (env : IngestEnv) (fs : FileSystem)
    (rows : List RawFeature)
    (hrows : fs.raw_data = some rows ∨
      (fs.raw_data = none ∧ env.download = Except.ok rows)) :
    (data_processing_main env fs).vector_store = some { collections :=
        [(CHROMA_COLLECTION_NAME, build_entries env.embed (processed_gdf rows))] } ∧
    collection_count { collections :=
        [(CHROMA_COLLECTION_NAME, build_entries env.embed (processed_gdf rows))] }
      CHROMA_COLLECTION_NAME = (processed_gdf rows).length ∧
    (build_entries env.embed (processed_gdf rows)).map IndexEntry.id
      = (processed_gdf rows).map (fun x => toString x.1) ∧
    ∀ v, (data_processing_main env { fs with vector_store := v }).vector_store
      = (data_processing_main env fs).vector_store := by
  have h1 := dp_main_eq env fs rows hrows
  refine ⟨by rw [h1], ?_, ?_, ?_⟩
  · simp [collection_count, build_entries]
  · simp [build_entries]
  · intro v
    have h3 := dp_main_eq env { fs with vector_store := v } rows hrows
    rw [h1, h3]

/-- Witness for C6: building from the two fixture rows yields a single
"delhi_wards" collection with one entry of id "0", regardless of the prior
store. -/
theorem c6_index_rebuild_witness :
    (fixtureFS.raw_data = none ∧ fixtureEnvOk.download = Except.ok fixtureRawRows) ∧
    ((data_processing_main fixtureEnvOk fixtureFS).vector_store
        = some { collections := [(CHROMA_COLLECTION_NAME,
            build_entries fixtureEnvOk.embed (processed_gdf fixtureRawRows))] } ∧
      collection_count { collections := [(CHROMA_COLLECTION_NAME,
          build_entries fixtureEnvOk.embed (processed_gdf fixtureRawRows))] }
        CHROMA_COLLECTION_NAME = (processed_gdf fixtureRawRows).length ∧
      (build_entries fixtureEnvOk.embed (processed_gdf fixtureRawRows)).map
          IndexEntry.id
        = (processed_gdf fixtureRawRows).map (fun x => toString x.1) ∧
      ∀ v, (data_processing_main fixtureEnvOk
          { fixtureFS with vector_store := v }).vector_store
        = (data_processing_main fixtureEnvOk fixtureFS).vector_store) :=
  ⟨⟨rfl, rfl⟩,
    c6_index_rebuild fixtureEnvOk fixtureFS fixtureRawRows (Or.inr ⟨rfl, rfl⟩)⟩

/-- C7: when the raw data file is absent and the download fails, ingestion
signals failure and aborts leaving the whole file system — in particular the
persisted corpus file — unchanged. -/
theorem c7_download_failure_aborts (env : IngestEnv) (fs : FileSystem)
    (e : String) (h1 : fs.raw_data = none) (h2 : env.download = Except.error e) :
    (download_data_if_needed env fs).1 = false ∧
    data_processing_main env fs = fs := by
  have hd : download_data_if_needed env fs = (false, fs) := by
    simp [download_data_if_needed, h1, h2]
  exact ⟨by rw [hd], by simp [data_processing_main, hd]⟩

/-- Witness for C7: a failed download over a previously persisted corpus
leaves that corpus file exactly as it was. -/
theorem c7_download_failure_aborts_witness :
    fixtureFSWithCorpus.raw_data = none ∧
    fixtureEnvFail.download = Except.error "HTTP 500" ∧
    ((download_data_if_needed fixtureEnvFail fixtureFSWithCorpus).1 = false ∧
      data_processing_main fixtureEnvFail fixtureFSWithCorpus = fixtureFSWithCorpus) :=
  ⟨rfl, rfl,
    c7_download_failure_aborts fixtureEnvFail fixtureFSWithCorpus "HTTP 500" rfl rfl⟩

/-- C8: any error raised by geocoding or by the point-in-polygon test is
caught inside `perform_hybrid_retrieval` and mapped to the fixed generic
search-error message with an empty ward set; no exception reaches the
caller. -/
theorem c8_search_error_caught (r : GeoRetriever) (query : String)
    (gdf : Corpus) (e : String)
    (hne : extract_entity_from_query r query ≠ "")
    (hnq : extract_entity_from_query r query ≠ query)
    (herr : r.geolocator.geocode
        (extract_entity_from_query r query ++ ", Delhi, India") = Except.error e
      ∨ ∃ loc, r.geolocator.geocode
          (extract_entity_from_query r query ++ ", Delhi, India")
            = Except.ok (some loc)
        ∧ contains_mask gdf (loc.longitude, loc.latitude) = Except.error e) :
    perform_hybrid_retrieval r query gdf =
      { context := "An error occurred while searching for the location.",
        wards := [], geocode_calls := 1 } := by
  have hcond : ¬(extract_entity_from_query r query = "" ∨
      extract_entity_from_query r query = query) := by
    push_neg
    exact ⟨hne, hnq⟩
  rcases herr with h | ⟨loc, hg, hm⟩
  · simp [perform_hybrid_retrieval, h, if_neg hcond]
  · have hcs : contains_select gdf (loc.longitude, loc.latitude)
        = Except.error e := by
      simp [contains_select, hm]
    simp [perform_hybrid_retrieval, hg, hcs, if_neg hcond]

/-- Witness for C8: a geolocator that raises is caught and mapped to the
fixed search-error message. -/
theorem c8_search_error_caught_witness :
    extract_entity_from_query rGeoFail "q" ≠ "" ∧
    extract_entity_from_query rGeoFail "q" ≠ "q" ∧
    rGeoFail.geolocator.geocode
      (extract_entity_from_query rGeoFail "q" ++ ", Delhi, India")
        = Except.error "network down" ∧
    perform_hybrid_retrieval rGeoFail "q" [] =
      { context := "An error occurred while searching for the location.",
        wards := [], geocode_calls := 1 } :=
  ⟨by decide, by decide, rfl,
    c8_search_error_caught rGeoFail "q" [] "network down" (by decide) (by decide)
      (Or.inl rfl)⟩

/-- C9: if the LLM client is unconfigured, or the completion call raises,
`extract_entity_from_query` returns the original question unchanged and
never raises. -/
theorem c9_extract_never_raises (r : GeoRetriever) (query : String)
    (h : r.llm_client = none ∨
      ∃ client e, r.llm_client = some client ∧
        client.complete (extraction_prompt query) = Except.error e) :
    extract_entity_from_query r query = query := by
  rcases h with h | ⟨client, e, hc, he⟩
  · simp [extract_entity_from_query, h]
  · simp [extract_entity_from_query, hc, he]

/-- Witness for C9: with no LLM client the question is returned unchanged. -/
theorem c9_extract_never_raises_witness :
    rNoLLM.llm_client = none ∧ extract_entity_from_query rNoLLM "q" = "q" :=
  ⟨rfl, c9_extract_never_raises rNoLLM "q" (Or.inl rfl)⟩

/-- C10 counterexample: for the completion `a"b` (an interior double quote,
no surrounding quotes or whitespace), the claim predicts the interior stays
unchanged (`spec_strip_surrounding`), but the code deletes the interior
quote too. -/
theorem c10_counterexample :
    extract_entity_from_query rQuote "q" = "ab" ∧
    spec_strip_surrounding "a\"b" = "a\"b" ∧
    extract_entity_from_query rQuote "q" ≠ spec_strip_surrounding "a\"b" := by
  refine ⟨?_, ?_, ?_⟩ <;> decide

/-- C10 (amended): on a successful call the entity is the completion with
surrounding whitespace stripped and then every double-quote character
deleted — including interior ones; all other characters are unchanged in
order. -/
theorem c10_strip_removes_all_quotes (r : GeoRetriever) (query : String)
    (client : LLMClient) (content : String)
    (hc : r.llm_client = some client)
    (hok : client.complete (extraction_prompt query) = Except.ok content) :
    extract_entity_from_query r query = stripAndUnquote content ∧
    (extract_entity_from_query r query).data
      = (pyStrip content).data.filter (fun c => decide (c ≠ '"')) := by
  have h1 : extract_entity_from_query r query = stripAndUnquote content := by
    simp [extract_entity_from_query, hc, hok]
  refine ⟨h1, ?_⟩
  rw [h1, stripAndUnquote, pyReplaceQuote_eq_filter]

/-- Witness for C10 (amended): the completion `a"b` yields entity "ab". -/
theorem c10_strip_removes_all_quotes_witness :
    rQuote.llm_client = some fixtureLLMQuote ∧
    fixtureLLMQuote.complete (extraction_prompt "q") = Except.ok "a\"b" ∧
    (extract_entity_from_query rQuote "q" = stripAndUnquote "a\"b" ∧
      (extract_entity_from_query rQuote "q").data
        = (pyStrip "a\"b").data.filter (fun c => decide (c ≠ '"'))) :=
  ⟨rfl, rfl, c10_strip_removes_all_quotes rQuote "q" fixtureLLMQuote "a\"b" rfl rfl⟩

end GeoRAG
